import Mathlib

/-!
Shallow embedding of the 0-D cardiovascular simulator core:
the activation function, chamber pressure model, valve flow model,
circulatory RHS, RK4 stepper, the per-frame real-time scheduler,
the end-diastole parameter commit / volume injection, and the
output buffer trim, together with theorems about them.
Machine floats are modelled as real numbers.
-/

noncomputable section

open Real

/-- Truncation toward zero, as used by the JavaScript remainder operator. -/
def rtrunc (x : ℝ) : ℤ :=
  if x < 0 then ⌈x⌉ else ⌊x⌋

/-- The JavaScript remainder `a % b`: `a - b * trunc (a / b)`.
For negative `a` and positive `b` the result is in `(-b, 0]`. -/
def jsMod (a b : ℝ) : ℝ :=
  a - b * (rtrunc (a / b) : ℝ)

/-- The phase computed inside the activation function: `_t % T` with
`T = 60000 / HR` (JavaScript remainder). -/
def e_phase (t HR : ℝ) : ℝ :=
  jsMod t (60000 / HR)

/-- Rising / early-falling branch of the activation function
(`t < Tmax`), including the baseline term that depends on the period. -/
def e_rise (t Tmax tau T : ℝ) : ℝ :=
  ((-Real.cos (Real.pi * t / Tmax) + 1) / 2) *
      (1 - Real.exp (-(T - 1.5 * Tmax) / tau) / 2) +
    Real.exp (-(T - 1.5 * Tmax) / tau) / 2

/-- Falling raised-cosine branch of the activation function
(`Tmax ≤ t < 9·Tmax/8`). -/
def e_fall (t Tmax : ℝ) : ℝ :=
  (Real.cos (2 * Real.pi * t / Tmax) + 1) / 2

/-- Exponential-tail branch of the activation function (`t ≥ 9·Tmax/8`). -/
def e_tail (t Tmax tau : ℝ) : ℝ :=
  Real.exp (-(t - 9 * Tmax / 8) / tau) * (2 + Real.sqrt 2) / 4

/-- Activation function `e_func(_t, Tmax, tau, HR)`: reduces `_t` modulo the
period with the JavaScript remainder, then dispatches on the three branches. -/
def e_func (t0 Tmax tau HR : ℝ) : ℝ :=
  if e_phase t0 HR < Tmax then e_rise (e_phase t0 HR) Tmax tau (60000 / HR)
  else if e_phase t0 HR < 9 * Tmax / 8 then e_fall (e_phase t0 HR) Tmax
  else e_tail (e_phase t0 HR) Tmax tau

/-- Chamber pressure model `P_ch`. -/
def P_ch (V t Ees V0 alpha beta Tmax tau AV_delay HR : ℝ) : ℝ :=
  beta * (Real.exp (alpha * (V - V0)) - 1) +
    e_func (t - AV_delay) Tmax tau HR *
      (Ees * (V - V0) - beta * (Real.exp (alpha * (V - V0)) - 1))

/-- Valve flow model `valve_flow(deltaP, R, Rs, Rr)`. -/
def valve_flow (deltaP R Rs Rr : ℝ) : ℝ :=
  if 0 < deltaP then
    if Rs = 0 then deltaP / R
    else (-R + Real.sqrt (R * R + 4 * Rs * deltaP)) / (2 * Rs)
  else
    if 100000 ≤ Rr then deltaP / (R + Rr)
    else (-R - Real.sqrt (R * R - 4 * Rr * deltaP)) / (2 * Rr)

/-- The flat simulation-parameter record. -/
structure SimulationParams where
  Ras : ℝ
  Rcs : ℝ
  Rvs : ℝ
  Ras_prox : ℝ
  Rcp : ℝ
  Rap : ℝ
  Rvp : ℝ
  Rap_prox : ℝ
  Rmv : ℝ
  Rtv : ℝ
  Rda : ℝ
  Cas : ℝ
  Cvs : ℝ
  Cas_prox : ℝ
  Cap : ℝ
  Cvp : ℝ
  Cap_prox : ℝ
  Cda : ℝ
  LV_Ees : ℝ
  LV_V0 : ℝ
  LV_alpha : ℝ
  LV_beta : ℝ
  LV_Tmax : ℝ
  LV_tau : ℝ
  LV_AV_delay : ℝ
  LA_Ees : ℝ
  LA_V0 : ℝ
  LA_alpha : ℝ
  LA_beta : ℝ
  LA_Tmax : ℝ
  LA_tau : ℝ
  LA_AV_delay : ℝ
  RV_Ees : ℝ
  RV_V0 : ℝ
  RV_alpha : ℝ
  RV_beta : ℝ
  RV_Tmax : ℝ
  RV_tau : ℝ
  RV_AV_delay : ℝ
  RA_Ees : ℝ
  RA_V0 : ℝ
  RA_alpha : ℝ
  RA_beta : ℝ
  RA_Tmax : ℝ
  RA_tau : ℝ
  RA_AV_delay : ℝ
  HR : ℝ
  Ravr : ℝ
  Ravs : ℝ
  Rmvr : ℝ
  Rmvs : ℝ
  Rpvr : ℝ
  Rpvs : ℝ
  Rtvr : ℝ
  Rtvs : ℝ

/-- The default parameter set from `constants.ts`. -/
def DEFAULT_PARAMS : SimulationParams where
  Ras := 20
  Rcs := 830
  Rvs := 25
  Ras_prox := 30
  Rcp := 10
  Rap := 13
  Rvp := 15
  Rap_prox := 15
  Rmv := 2.5
  Rtv := 2.5
  Rda := 3
  Cas := 1.83
  Cvs := 70
  Cas_prox := 0.54
  Cap := 20
  Cvp := 7
  Cap_prox := 1.0
  Cda := 0.52
  LV_Ees := 2.21
  LV_V0 := 5
  LV_alpha := 0.029
  LV_beta := 0.34
  LV_Tmax := 300
  LV_tau := 25
  LV_AV_delay := 160
  LA_Ees := 0.48
  LA_V0 := 10
  LA_alpha := 0.058
  LA_beta := 0.44
  LA_Tmax := 125
  LA_tau := 20
  LA_AV_delay := 0
  RV_Ees := 0.74
  RV_V0 := 5
  RV_alpha := 0.028
  RV_beta := 0.34
  RV_Tmax := 300
  RV_tau := 25
  RV_AV_delay := 160
  RA_Ees := 0.38
  RA_V0 := 10
  RA_alpha := 0.046
  RA_beta := 0.44
  RA_Tmax := 125
  RA_tau := 20
  RA_AV_delay := 0
  HR := 60
  Ravr := 100000
  Ravs := 0
  Rmvr := 100000
  Rmvs := 0
  Rpvr := 100000
  Rpvs := 0
  Rtvr := 100000
  Rtvs := 0

/-- The 12-component state vector
`[Qvs, Qas, Qap, Qvp, Qlv, Qla, Qrv, Qra, Qas_prox, Qda, Qap_prox, Qtube]`. -/
def StateVector : Type := Fin 12 → ℝ

/-- Auxiliary outputs of a derivative evaluation. -/
structure Aux where
  Plv : ℝ
  Pla : ℝ
  Prv : ℝ
  Pra : ℝ
  AoP : ℝ
  PAP : ℝ
  Imv : ℝ
  Iasp : ℝ

/-- Result of one RHS evaluation. -/
structure RHSResult where
  dy : StateVector
  aux : Aux

/-- Right-hand side of the circulatory ODE system. -/
def rhs (t : ℝ) (y : StateVector) (p : SimulationParams) : RHSResult :=
  let Qvs := y 0
  let Qas := y 1
  let Qap := y 2
  let Qvp := y 3
  let Qlv := y 4
  let Qla := y 5
  let Qrv := y 6
  let Qra := y 7
  let Qas_prox := y 8
  let Qda := y 9
  let Qap_prox := y 10
  let Plv := P_ch Qlv t p.LV_Ees p.LV_V0 p.LV_alpha p.LV_beta p.LV_Tmax p.LV_tau p.LV_AV_delay p.HR
  let Pla := P_ch Qla t p.LA_Ees p.LA_V0 p.LA_alpha p.LA_beta p.LA_Tmax p.LA_tau p.LA_AV_delay p.HR
  let Prv := P_ch Qrv t p.RV_Ees p.RV_V0 p.RV_alpha p.RV_beta p.RV_Tmax p.RV_tau p.RV_AV_delay p.HR
  let Pra := P_ch Qra t p.RA_Ees p.RA_V0 p.RA_alpha p.RA_beta p.RA_Tmax p.RA_tau p.RA_AV_delay p.HR
  let Paop := Qas_prox / p.Cas_prox
  let PAP := Qap_prox / p.Cap_prox
  let Pda := Qda / p.Cda
  let Pas := Qas / p.Cas
  let Pvs := Qvs / p.Cvs
  let Pvp := Qvp / p.Cvp
  let Pap := Qap / p.Cap
  let Ida := (Paop - Pda) / p.Rda
  let Ias := (Pda - Pas) / p.Ras
  let Ics := (Pas - Pvs) / p.Rcs
  let Ivs := (Pvs - Pra) / p.Rvs
  let Ivp := (Pvp - Pla) / p.Rvp
  let Iap := (Pap - Pvp) / p.Rap
  let Icp := (PAP - Pap) / p.Rcp
  let Itv := valve_flow (Pra - Prv) p.Rtv p.Rtvs p.Rtvr
  let Imv := valve_flow (Pla - Plv) p.Rmv p.Rmvs p.Rmvr
  let Iasp := valve_flow (Plv - Paop) p.Ras_prox p.Ravs p.Ravr
  let Iapp := valve_flow (Prv - PAP) p.Rap_prox p.Rpvs p.Rpvr
  { dy := ![Ics - Ivs, Ias - Ics, Icp - Iap, Iap - Ivp,
            Imv - Iasp, Ivp - Imv, Itv - Iapp, Ivs - Itv,
            Iasp - Ida, Ida - Ias, Iapp - Icp, 0]
    aux := { Plv := Plv, Pla := Pla, Prv := Prv, Pra := Pra,
             AoP := Paop, PAP := PAP, Imv := Imv, Iasp := Iasp } }

/-- Result of one RK4 step. -/
structure RKResult where
  tNext : ℝ
  yNext : StateVector
  aux : Aux

/-- One RK4 integration step; auxiliary outputs are captured from the
start-of-step evaluation. -/
def stepRK4 (t : ℝ) (y : StateVector) (dt : ℝ) (p : SimulationParams) : RKResult :=
  let r1 := rhs t y p
  let k1 := r1.dy
  let y_k2 : StateVector := fun i => y i + dt * k1 i / 2
  let k2 := (rhs (t + dt / 2) y_k2 p).dy
  let y_k3 : StateVector := fun i => y i + dt * k2 i / 2
  let k3 := (rhs (t + dt / 2) y_k3 p).dy
  let y_k4 : StateVector := fun i => y i + dt * k3 i
  let k4 := (rhs (t + dt) y_k4 p).dy
  { tNext := t + dt
    yNext := fun i => y i + dt * (k1 i + 2 * k2 i + 2 * k3 i + k4 i) / 6
    aux := r1.aux }

/-- Total volume: sum of all 12 state components. -/
def getTotalVolume (y : StateVector) : ℝ :=
  ∑ i, y i

/-- Result of one scheduler frame: the new accumulator value and the number
of physics steps the frame's loop executes. -/
structure FrameResult where
  residue : ℝ
  steps : ℕ
  deriving DecidableEq

/-- One frame of the real-time scheduler in the playing state
(`PHYSICS_DT = 2.0`, `MAX_STEPS_PER_FRAME = 20`): add the scaled wall-clock
delta to the accumulator, take `stepsToRun = ⌊acc / 2⌋`; if that exceeds 20,
run 20 steps and reset the accumulator to 0, otherwise subtract
`stepsToRun × 2` and run `stepsToRun` steps (the `for` loop runs
`max stepsToRun 0` times). -/
def schedulerFrame (residue deltaTimeMs timeScale : ℝ) : FrameResult :=
  let acc := residue + deltaTimeMs * timeScale
  let stepsToRun : ℤ := ⌊acc / 2⌋
  if 20 < stepsToRun then { residue := 0, steps := 20 }
  else { residue := acc - (stepsToRun : ℝ) * 2, steps := stepsToRun.toNat }

/-- Run a sequence of scheduler frames at playback speed 1, returning the
final accumulator and the total number of physics steps executed. -/
def runFrames : ℝ → List ℝ → ℝ × ℕ
  | residue, [] => (residue, 0)
  | residue, d :: ds =>
      let fr := schedulerFrame residue d 1
      let rest := runFrames fr.residue ds
      (rest.1, fr.steps + rest.2)

/-- No frame of the sequence triggers the overload clamp. -/
def noClamp : ℝ → List ℝ → Prop
  | _, [] => True
  | residue, d :: ds =>
      ⌊(residue + d * 1) / 2⌋ ≤ 20 ∧ noClamp (schedulerFrame residue d 1).residue ds

/-- The end-diastole parameter commit: fields copied from the live
parameters `p` into the active parameters `ap` when the end-diastole event
fires (`App.tsx` lines 165-177). -/
def commitEndDiastole (p ap : SimulationParams) : SimulationParams :=
  { ap with
    HR := p.HR
    Ras := p.Ras, Rcs := p.Rcs, Rvs := p.Rvs, Ras_prox := p.Ras_prox, Rda := p.Rda
    Rap := p.Rap, Rvp := p.Rvp, Rap_prox := p.Rap_prox, Rcp := p.Rcp
    Rmv := p.Rmv, Rtv := p.Rtv
    Cas := p.Cas, Cvs := p.Cvs, Cas_prox := p.Cas_prox, Cda := p.Cda
    Cap := p.Cap, Cvp := p.Cvp, Cap_prox := p.Cap_prox
    LV_Ees := p.LV_Ees, LV_V0 := p.LV_V0
    RV_Ees := p.RV_Ees, RV_V0 := p.RV_V0
    LA_Ees := p.LA_Ees, LA_V0 := p.LA_V0
    RA_Ees := p.RA_Ees, RA_V0 := p.RA_V0 }

/-- The end-diastole volume-matching injection: clamp the discrepancy to
`±500` and, if its magnitude exceeds 1, add it to state component 0. -/
def injectVolume (targetTotal : ℝ) (y : StateVector) : StateVector :=
  let diff := targetTotal - getTotalVolume y
  let delta := max (-500) (min 500 diff)
  if 1 < |delta| then Function.update y 0 (y 0 + delta) else y

/-- One buffer append-and-trim step: push the new record's time, then
remove the oldest entry if it is more than 21000 ms behind the new time. -/
def bufStep (buf : List ℝ) (tNext : ℝ) : List ℝ :=
  match buf ++ [tNext] with
  | [] => []
  | x :: rest => if x < tNext - 21000 then rest else x :: rest

/-- Consecutive buffer times differ by exactly the 2 ms step size. -/
def spaced : List ℝ → Prop
  | x :: y :: rest => y = x + 2 ∧ spaced (y :: rest)
  | _ => True

/-- Standard RK4 slope k1: RHS evaluated at the start of the step. -/
def rkK1 (t : ℝ) (y : StateVector) (p : SimulationParams) : StateVector :=
  (rhs t y p).dy

/-- Standard RK4 slope k2: RHS at the midpoint using k1. -/
def rkK2 (t : ℝ) (y : StateVector) (dt : ℝ) (p : SimulationParams) : StateVector :=
  (rhs (t + dt / 2) (fun i => y i + dt * rkK1 t y p i / 2) p).dy

/-- Standard RK4 slope k3: RHS at the midpoint using k2. -/
def rkK3 (t : ℝ) (y : StateVector) (dt : ℝ) (p : SimulationParams) : StateVector :=
  (rhs (t + dt / 2) (fun i => y i + dt * rkK2 t y dt p i / 2) p).dy

/-- Standard RK4 slope k4: RHS at the endpoint using k3. -/
def rkK4 (t : ℝ) (y : StateVector) (dt : ℝ) (p : SimulationParams) : StateVector :=
  (rhs (t + dt) (fun i => y i + dt * rkK3 t y dt p i) p).dy

/-- Claim C1 (code-bug evidence): with a zero pressure gradient, the linear
closed-valve branch (`Rr = 100000`, at the threshold) indeed returns 0, but
the reverse-gradient quadratic branch (`Rr = 1`, below the threshold) returns
`-R/Rr = -1` rather than the zero flow the specification demands. -/
theorem valve_flow_zero_gradient :
    valve_flow 0 1 0 100000 = 0 ∧ valve_flow 0 1 0 1 = -1 := by
  constructor
  · unfold valve_flow
    norm_num
  · unfold valve_flow
    norm_num [Real.sqrt_one]

/-- Claim C2 counterexample: the end-diastole commit does not copy the
aortic-valve regurgitation resistance `Ravr` — with a live value of 1 and an
active value of 100000, the committed record still holds 100000. -/
theorem commit_omits_Ravr :
    (commitEndDiastole { DEFAULT_PARAMS with Ravr := 1 } DEFAULT_PARAMS).Ravr = 100000 ∧
    ({ DEFAULT_PARAMS with Ravr := 1 } : SimulationParams).Ravr = 1 ∧
    (100000 : ℝ) ≠ 1 := by
  refine ⟨rfl, rfl, by norm_num⟩

/-- Claim C2 (amended): the end-diastole commit copies HR, the eleven
segment/valve-forward resistances, the seven compliances and the four
chambers' Ees/V0 pairs from the live record, but leaves the eight valve-leak
resistances (Ravr, Ravs, Rmvr, Rmvs, Rpvr, Rpvs, Rtvr, Rtvs) at their
previously active values. -/
theorem commitEndDiastole_fields (p ap : SimulationParams) :
    (commitEndDiastole p ap).HR = p.HR ∧
    (commitEndDiastole p ap).Ras = p.Ras ∧
    (commitEndDiastole p ap).Rcs = p.Rcs ∧
    (commitEndDiastole p ap).Rvs = p.Rvs ∧
    (commitEndDiastole p ap).Ras_prox = p.Ras_prox ∧
    (commitEndDiastole p ap).Rda = p.Rda ∧
    (commitEndDiastole p ap).Rap = p.Rap ∧
    (commitEndDiastole p ap).Rvp = p.Rvp ∧
    (commitEndDiastole p ap).Rap_prox = p.Rap_prox ∧
    (commitEndDiastole p ap).Rcp = p.Rcp ∧
    (commitEndDiastole p ap).Rmv = p.Rmv ∧
    (commitEndDiastole p ap).Rtv = p.Rtv ∧
    (commitEndDiastole p ap).Cas = p.Cas ∧
    (commitEndDiastole p ap).Cvs = p.Cvs ∧
    (commitEndDiastole p ap).Cas_prox = p.Cas_prox ∧
    (commitEndDiastole p ap).Cda = p.Cda ∧
    (commitEndDiastole p ap).Cap = p.Cap ∧
    (commitEndDiastole p ap).Cvp = p.Cvp ∧
    (commitEndDiastole p ap).Cap_prox = p.Cap_prox ∧
    (commitEndDiastole p ap).LV_Ees = p.LV_Ees ∧
    (commitEndDiastole p ap).LV_V0 = p.LV_V0 ∧
    (commitEndDiastole p ap).RV_Ees = p.RV_Ees ∧
    (commitEndDiastole p ap).RV_V0 = p.RV_V0 ∧
    (commitEndDiastole p ap).LA_Ees = p.LA_Ees ∧
    (commitEndDiastole p ap).LA_V0 = p.LA_V0 ∧
    (commitEndDiastole p ap).RA_Ees = p.RA_Ees ∧
    (commitEndDiastole p ap).RA_V0 = p.RA_V0 ∧
    (commitEndDiastole p ap).Ravr = ap.Ravr ∧
    (commitEndDiastole p ap).Ravs = ap.Ravs ∧
    (commitEndDiastole p ap).Rmvr = ap.Rmvr ∧
    (commitEndDiastole p ap).Rmvs = ap.Rmvs ∧
    (commitEndDiastole p ap).Rpvr = ap.Rpvr ∧
    (commitEndDiastole p ap).Rpvs = ap.Rpvs ∧
    (commitEndDiastole p ap).Rtvr = ap.Rtvr ∧
    (commitEndDiastole p ap).Rtvs = ap.Rtvs := by
  repeat' constructor

/-- Claim C4: in a playing frame with non-negative accumulated time, if
`stepsToRun = ⌊acc/2⌋` exceeds 20 then exactly 20 steps run and the
accumulator resets to 0, otherwise `stepsToRun` steps run and exactly
`stepsToRun × 2` is subtracted; a single frame with a 10000 ms delta at
speed 1 runs exactly 20 steps and leaves the accumulator at 0. -/
theorem schedulerFrame_spec (residue d ts : ℝ) (h0 : 0 ≤ residue + d * ts) :
    (20 < ⌊(residue + d * ts) / 2⌋ →
        schedulerFrame residue d ts = { residue := 0, steps := 20 }) ∧
    (⌊(residue + d * ts) / 2⌋ ≤ 20 →
        ((schedulerFrame residue d ts).steps : ℤ) = ⌊(residue + d * ts) / 2⌋ ∧
        (schedulerFrame residue d ts).residue =
          residue + d * ts - (⌊(residue + d * ts) / 2⌋ : ℝ) * 2) ∧
    schedulerFrame 0 10000 1 = { residue := 0, steps := 20 } := by
  refine ⟨?_, ?_, ?_⟩
  · intro h
    simp [schedulerFrame, h]
  · intro h
    have hs : ¬ 20 < ⌊(residue + d * ts) / 2⌋ := not_lt.2 h
    have hnn : (0 : ℤ) ≤ ⌊(residue + d * ts) / 2⌋ :=
      Int.floor_nonneg.2 (div_nonneg h0 (by norm_num))
    simp [schedulerFrame, hs, Int.toNat_of_nonneg hnn]
  · have hacc : ⌊(10000 : ℝ) / 2⌋ = 5000 := by norm_num
    norm_num [schedulerFrame, hacc]

/-- Claim C4 witness: the overload-clamp conclusion at the concrete frame. -/
theorem schedulerFrame_spec_witness :
    schedulerFrame 0 10000 1 = { residue := 0, steps := 20 } :=
  (schedulerFrame_spec 0 10000 1 (by norm_num)).2.2

/-- Claim C5: the end-diastole injected delta is
`clamp(target − total, −500, 500)`; when its magnitude exceeds 1 it is added
to state component 0 only, all other components being unchanged, and when it
does not the state is unchanged; a discrepancy of 10000 clamps to 500. -/
theorem injectVolume_spec (targetTotal : ℝ) (y : StateVector) :
    (1 < |max (-500) (min 500 (targetTotal - getTotalVolume y))| →
        injectVolume targetTotal y 0 =
          y 0 + max (-500) (min 500 (targetTotal - getTotalVolume y)) ∧
        ∀ i : Fin 12, i ≠ 0 → injectVolume targetTotal y i = y i) ∧
    (¬ 1 < |max (-500) (min 500 (targetTotal - getTotalVolume y))| →
        injectVolume targetTotal y = y) ∧
    (targetTotal - getTotalVolume y = 10000 →
        max (-500) (min 500 (targetTotal - getTotalVolume y)) = 500 ∧
        injectVolume targetTotal y 0 = y 0 + 500) := by
  refine ⟨?_, ?_, ?_⟩
  · intro h
    refine ⟨?_, ?_⟩
    · simp [injectVolume, h]
    · intro i hi
      simp [injectVolume, h, Function.update_noteq hi]
  · intro h
    simp [injectVolume, h]
  · intro h
    have hd : max (-500) (min 500 (targetTotal - getTotalVolume y)) = 500 := by
      rw [h]; norm_num
    refine ⟨hd, ?_⟩
    have habs : 1 < |max (-500) (min 500 (targetTotal - getTotalVolume y))| := by
      rw [hd]; norm_num
    simp [injectVolume, habs, hd]

/-- Claim C5 witness: at target 10000 over the zero state the delta is
exactly 500 and lands in component 0. -/
theorem injectVolume_spec_witness :
    max (-500) (min 500 ((10000 : ℝ) - getTotalVolume (fun _ => 0))) = 500 ∧
    injectVolume 10000 (fun _ => 0) 0 = (fun _ => (0 : ℝ)) 0 + 500 :=
  (injectVolume_spec 10000 (fun _ => 0)).2.2 (by simp [getTotalVolume])

theorem jsMod_eq_fract (a b : ℝ) (ha : 0 ≤ a) (hb : 0 < b) :
    jsMod a b = b * Int.fract (a / b) := by
  have h1 : (rtrunc (a / b) : ℝ) = (⌊a / b⌋ : ℝ) := by
    unfold rtrunc
    rw [if_neg (not_lt.2 (div_nonneg ha hb.le))]
  unfold jsMod
  rw [h1, Int.fract, mul_sub, mul_comm b (a / b), div_mul_cancel₀ a hb.ne']

theorem jsMod_nonneg (a b : ℝ) (ha : 0 ≤ a) (hb : 0 < b) : 0 ≤ jsMod a b := by
  rw [jsMod_eq_fract a b ha hb]
  exact mul_nonneg hb.le (Int.fract_nonneg _)

theorem jsMod_lt (a b : ℝ) (ha : 0 ≤ a) (hb : 0 < b) : jsMod a b < b := by
  rw [jsMod_eq_fract a b ha hb]
  calc b * Int.fract (a / b) < b * 1 :=
        mul_lt_mul_of_pos_left (Int.fract_lt_one _) hb
    _ = b := mul_one b

theorem jsMod_eq_self (a b : ℝ) (ha : 0 ≤ a) (hab : a < b) : jsMod a b = a := by
  have hb : 0 < b := lt_of_le_of_lt ha hab
  have hd : 0 ≤ a / b := div_nonneg ha hb.le
  have hfl : ⌊a / b⌋ = 0 :=
    Int.floor_eq_zero_iff.2 ⟨hd, (div_lt_one hb).2 hab⟩
  unfold jsMod rtrunc
  rw [if_neg (not_lt.2 hd), hfl]
  simp

/-- Claim C3 counterexample: at t = -100, HR = 60 (period 1000) the phase
computed by the activation function is the JavaScript remainder -100, a
negative value, not a normalized phase in [0, T). -/
theorem e_phase_negative_input :
    e_phase (-100) 60 = -100 ∧ ¬ 0 ≤ e_phase (-100) 60 := by
  have hT : (60000 : ℝ) / 60 = 1000 := by norm_num
  have hdiv : (-100 : ℝ) / 1000 < 0 := by norm_num
  have hc : ⌈(-100 : ℝ) / 1000⌉ = 0 := by
    rw [Int.ceil_eq_zero_iff]
    constructor <;> norm_num
  have : e_phase (-100) 60 = -100 := by
    unfold e_phase jsMod rtrunc
    rw [hT, if_pos hdiv, hc]
    norm_num
  exact ⟨this, by rw [this]; norm_num⟩

/-- Claim C3 (amended): for non-negative input times t and HR > 0 the phase
`t % T` is a normalized value in [0, T) and the activation function agrees
with its value at the normalized phase; for negative t the JavaScript
remainder is negative and no normalization occurs. -/
theorem e_phase_normalizes (t Tmax tau HR : ℝ) (ht : 0 ≤ t) (hHR : 0 < HR) :
    0 ≤ e_phase t HR ∧ e_phase t HR < 60000 / HR ∧
    e_func t Tmax tau HR = e_func (e_phase t HR) Tmax tau HR := by
  have hT : 0 < 60000 / HR := by positivity
  have h1 : 0 ≤ e_phase t HR := jsMod_nonneg t (60000 / HR) ht hT
  have h2 : e_phase t HR < 60000 / HR := jsMod_lt t (60000 / HR) ht hT
  have h3 : e_phase (e_phase t HR) HR = e_phase t HR :=
    jsMod_eq_self (e_phase t HR) (60000 / HR) h1 h2
  refine ⟨h1, h2, ?_⟩
  unfold e_func
  rw [h3]

/-- Claim C3 witness: at t = 1500, HR = 60 the normalized phase is in
[0, 1000) and the activation value agrees with its value at that phase. -/
theorem e_phase_normalizes_witness :
    0 ≤ e_phase 1500 60 ∧ e_phase 1500 60 < 60000 / 60 ∧
    e_func 1500 300 25 60 = e_func (e_phase 1500 60) 300 25 60 :=
  e_phase_normalizes 1500 300 25 60 (by norm_num) (by norm_num)

/-- Claim C6: for Tmax, tau, HR > 0 the three activation branches agree at
their boundaries: the rising and falling branches both give 1 at
phase = Tmax, and the falling and exponential-tail branches both give
(2+√2)/4 at phase = 9·Tmax/8, so the activation function is continuous at
both regime boundaries. -/
theorem e_func_branch_continuity (Tmax tau HR : ℝ)
    (hTmax : 0 < Tmax) (_htau : 0 < tau) (_hHR : 0 < HR) :
    e_rise Tmax Tmax tau (60000 / HR) = 1 ∧
    e_fall Tmax Tmax = 1 ∧
    e_fall (9 * Tmax / 8) Tmax = (2 + Real.sqrt 2) / 4 ∧
    e_tail (9 * Tmax / 8) Tmax tau = (2 + Real.sqrt 2) / 4 := by
  have hne : Tmax ≠ 0 := hTmax.ne'
  refine ⟨?_, ?_, ?_, ?_⟩
  · unfold e_rise
    rw [show Real.pi * Tmax / Tmax = Real.pi by
          rw [mul_div_assoc, div_self hne, mul_one]]
    rw [Real.cos_pi]
    ring
  · unfold e_fall
    rw [show 2 * Real.pi * Tmax / Tmax = 2 * Real.pi by
          rw [mul_div_assoc, div_self hne, mul_one]]
    rw [Real.cos_two_pi]
    norm_num
  · unfold e_fall
    rw [show 2 * Real.pi * (9 * Tmax / 8) / Tmax = Real.pi / 4 + 2 * Real.pi by
          field_simp
          ring]
    rw [Real.cos_add_two_pi, Real.cos_pi_div_four]
    ring
  · unfold e_tail
    rw [show -(9 * Tmax / 8 - 9 * Tmax / 8) / tau = 0 by
          rw [sub_self, neg_zero, zero_div]]
    rw [Real.exp_zero]
    ring

/-- Claim C6 witness: boundary agreement at Tmax = 1, tau = 1, HR = 1. -/
theorem e_func_branch_continuity_witness :
    e_rise 1 1 1 (60000 / 1) = 1 ∧
    e_fall 1 1 = 1 ∧
    e_fall (9 * 1 / 8) 1 = (2 + Real.sqrt 2) / 4 ∧
    e_tail (9 * 1 / 8) 1 1 = (2 + Real.sqrt 2) / 4 :=
  e_func_branch_continuity 1 1 1 (by norm_num) (by norm_num) (by norm_num)

/-- Claim C9: the RK4 stepper returns `t + dt`, the state
`y + dt·(k1 + 2·k2 + 2·k3 + k4)/6` built from the four standard RHS
evaluations, and the auxiliary pressures of the k1 (start-of-step)
evaluation, not of any later evaluation. -/
theorem stepRK4_spec (t : ℝ) (y : StateVector) (dt : ℝ) (p : SimulationParams) :
    stepRK4 t y dt p =
      { tNext := t + dt
        yNext := fun i =>
          y i + dt * (rkK1 t y p i + 2 * rkK2 t y dt p i +
            2 * rkK3 t y dt p i + rkK4 t y dt p i) / 6
        aux := (rhs t y p).aux } := by
  simp only [stepRK4, rkK4, rkK3, rkK2, rkK1]

theorem stepRK4_eq (t : ℝ) (y : StateVector) (dt : ℝ) (p : SimulationParams) :
    stepRK4 t y dt p =
      { tNext := t + dt
        yNext := fun i =>
          y i + dt * (rkK1 t y p i + 2 * rkK2 t y dt p i +
            2 * rkK3 t y dt p i + rkK4 t y dt p i) / 6
        aux := (rhs t y p).aux } := by
  simp only [stepRK4, rkK4, rkK3, rkK2, rkK1]

theorem rhs_sum_zero (t : ℝ) (y : StateVector) (p : SimulationParams) :
    ∑ i, (rhs t y p).dy i = 0 := by
  simp only [rhs]
  simp [Fin.sum_univ_succ]
  ring

theorem sum_rk4_combination (y k1 k2 k3 k4 : StateVector) (dt : ℝ)
    (h1 : ∑ i, k1 i = 0) (h2 : ∑ i, k2 i = 0)
    (h3 : ∑ i, k3 i = 0) (h4 : ∑ i, k4 i = 0) :
    ∑ i, (y i + dt * (k1 i + 2 * k2 i + 2 * k3 i + k4 i) / 6) = ∑ i, y i := by
  have hsplit : ∀ i : Fin 12,
      y i + dt * (k1 i + 2 * k2 i + 2 * k3 i + k4 i) / 6 =
        y i + (dt / 6) * k1 i + (dt / 3) * k2 i + (dt / 3) * k3 i +
          (dt / 6) * k4 i := by
    intro i
    ring
  rw [Finset.sum_congr rfl fun i _ => hsplit i]
  rw [Finset.sum_add_distrib, Finset.sum_add_distrib, Finset.sum_add_distrib,
    Finset.sum_add_distrib, ← Finset.mul_sum, ← Finset.mul_sum,
    ← Finset.mul_sum, ← Finset.mul_sum, h1, h2, h3, h4]
  ring

/-- Claim C10: the 12 RHS derivative components always sum to exactly zero,
and consequently one RK4 step leaves the total volume unchanged in exact
real arithmetic. -/
theorem volume_conservation (t dt : ℝ) (y : StateVector) (p : SimulationParams) :
    (∑ i, (rhs t y p).dy i) = 0 ∧
    getTotalVolume (stepRK4 t y dt p).yNext = getTotalVolume y := by
  refine ⟨rhs_sum_zero t y p, ?_⟩
  unfold getTotalVolume
  rw [stepRK4_eq]
  exact sum_rk4_combination y (rkK1 t y p) (rkK2 t y dt p) (rkK3 t y dt p)
    (rkK4 t y dt p) dt (rhs_sum_zero t y p)
    (rhs_sum_zero (t + dt / 2) (fun i => y i + dt * rkK1 t y p i / 2) p)
    (rhs_sum_zero (t + dt / 2) (fun i => y i + dt * rkK2 t y dt p i / 2) p)
    (rhs_sum_zero (t + dt) (fun i => y i + dt * rkK3 t y dt p i) p)

theorem schedulerFrame_no_clamp (r d : ℝ) (h0 : 0 ≤ r + d)
    (hf : ⌊(r + d) / 2⌋ ≤ 20) :
    2 * ((schedulerFrame r d 1).steps : ℝ) + (schedulerFrame r d 1).residue =
        r + d ∧
    0 ≤ (schedulerFrame r d 1).residue ∧ (schedulerFrame r d 1).residue < 2 := by
  have hnn : (0 : ℤ) ≤ ⌊(r + d) / 2⌋ :=
    Int.floor_nonneg.2 (div_nonneg h0 (by norm_num))
  have hlt : ¬ 20 < ⌊(r + d) / 2⌋ := not_lt.2 hf
  have hres : (schedulerFrame r d 1).residue =
      r + d - (⌊(r + d) / 2⌋ : ℝ) * 2 := by
    simp [schedulerFrame, hlt]
  have hsteps : ((schedulerFrame r d 1).steps : ℝ) = (⌊(r + d) / 2⌋ : ℝ) := by
    simp only [schedulerFrame, mul_one, if_neg hlt]
    exact_mod_cast congrArg (Int.cast : ℤ → ℝ) (Int.toNat_of_nonneg hnn)
  have hfr : (r + d) - (⌊(r + d) / 2⌋ : ℝ) * 2 =
      2 * Int.fract ((r + d) / 2) := by
    rw [Int.fract]
    ring
  refine ⟨?_, ?_, ?_⟩
  · rw [hres, hsteps]
    ring
  · rw [hres, hfr]
    have := Int.fract_nonneg ((r + d) / 2)
    linarith
  · rw [hres, hfr]
    have := Int.fract_lt_one ((r + d) / 2)
    linarith

theorem runFrames_inv (ds : List ℝ) :
    ∀ r : ℝ, 0 ≤ r → r < 2 → (∀ d ∈ ds, 0 ≤ d) → noClamp r ds →
      2 * ((runFrames r ds).2 : ℝ) + (runFrames r ds).1 = r + ds.sum ∧
      0 ≤ (runFrames r ds).1 ∧ (runFrames r ds).1 < 2 := by
  induction ds with
  | nil =>
    intro r h0 h2 _ _
    refine ⟨?_, h0, h2⟩
    simp [runFrames]
  | cons d ds ih =>
    intro r h0 h2 hpos hnc
    obtain ⟨hf, hnc'⟩ := hnc
    rw [mul_one] at hf
    have hd : 0 ≤ d := hpos d (List.mem_cons_self d ds)
    have hacc : 0 ≤ r + d := by linarith
    obtain ⟨hsum1, hge1, hlt1⟩ := schedulerFrame_no_clamp r d hacc hf
    obtain ⟨hsum2, hge2, hlt2⟩ :=
      ih (schedulerFrame r d 1).residue hge1 hlt1
        (fun x hx => hpos x (List.mem_cons_of_mem d hx)) hnc'
    have hrun : runFrames r (d :: ds) =
        ((runFrames (schedulerFrame r d 1).residue ds).1,
          (schedulerFrame r d 1).steps +
            (runFrames (schedulerFrame r d 1).residue ds).2) := rfl
    rw [hrun]
    refine ⟨?_, hge2, hlt2⟩
    push_cast
    rw [List.sum_cons]
    linarith

/-- Claim C7: over any playing frame sequence at speed 1 starting from a
zero accumulator in which no frame triggers the overload clamp and all
wall-clock deltas are non-negative, the total number of physics steps
executed is exactly `⌊D / 2⌋` where `D` is the sum of the deltas (hence
within one step of `⌊D / 2⌋`). -/
theorem scheduler_step_conservation (ds : List ℝ)
    (hpos : ∀ d ∈ ds, 0 ≤ d) (hnc : noClamp 0 ds) :
    ((runFrames 0 ds).2 : ℤ) = ⌊ds.sum / 2⌋ := by
  obtain ⟨hsum, hge, hlt⟩ := runFrames_inv ds 0 le_rfl (by norm_num) hpos hnc
  symm
  rw [Int.floor_eq_iff]
  constructor
  · push_cast
    linarith
  · push_cast
    linarith

/-- Claim C7 witness: a single 5 ms frame executes ⌊5/2⌋ = 2 steps. -/
theorem scheduler_step_conservation_witness :
    ((runFrames 0 [(5 : ℝ)]).2 : ℤ) = ⌊([(5 : ℝ)] : List ℝ).sum / 2⌋ :=
  scheduler_step_conservation [5] (by norm_num) (by norm_num [noClamp])

theorem spaced_of_cons (x : ℝ) (l : List ℝ) (h : spaced (x :: l)) : spaced l := by
  cases l with
  | nil => trivial
  | cons y ys => exact h.2

theorem spaced_le_of_mem (x : ℝ) (l : List ℝ) (h : spaced (x :: l)) :
    ∀ z ∈ l, x + 2 ≤ z := by
  induction l generalizing x with
  | nil =>
    intro z hz
    simp at hz
  | cons y ys ih =>
    intro z hz
    obtain ⟨hxy, h2⟩ := h
    rcases List.mem_cons.1 hz with rfl | hz
    · linarith
    · have := ih y h2 z hz
      linarith

/-- Claim C8: one buffer append-and-trim step (one append, at most one
oldest-entry removal) preserves the retention invariant: every retained
entry — in particular the oldest — lies within 21000 ms of the new newest
entry, which is the appended time itself. -/
theorem buffer_retention (buf : List ℝ) (tN : ℝ)
    (hsp : spaced (buf ++ [tN]))
    (hinv : ∀ x ∈ buf, tN - 2 - 21000 ≤ x) :
    (∀ x ∈ bufStep buf tN, tN - 21000 ≤ x) ∧
    (bufStep buf tN).getLast? = some tN ∧
    spaced (bufStep buf tN) := by
  cases buf with
  | nil =>
    have hcond : ¬ tN < tN - 21000 := by linarith
    refine ⟨?_, ?_, ?_⟩
    · intro x hx
      simp [bufStep, hcond] at hx
      subst hx
      linarith
    · simp [bufStep, hcond]
    · simp only [bufStep, List.nil_append]
      rw [if_neg hcond]
      trivial
  | cons b bs =>
    have hsp' : spaced (b :: (bs ++ [tN])) := hsp
    have hmono := spaced_le_of_mem b (bs ++ [tN]) hsp'
    have hb : tN - 2 - 21000 ≤ b := hinv b (List.mem_cons_self b bs)
    have hred : bufStep (b :: bs) tN =
        if b < tN - 21000 then bs ++ [tN] else b :: (bs ++ [tN]) := rfl
    by_cases hc : b < tN - 21000
    · rw [hred, if_pos hc]
      refine ⟨?_, List.getLast?_concat _, ?_⟩
      · intro x hx
        rcases List.mem_append.1 hx with hx | hx
        · have := hmono x (List.mem_append_left _ hx)
          linarith
        · simp at hx
          subst hx
          linarith
      · exact spaced_of_cons _ _ hsp'
    · rw [hred, if_neg hc]
      refine ⟨?_, ?_, hsp'⟩
      · intro x hx
        rcases List.mem_cons.1 hx with rfl | hx
        · linarith
        · rcases List.mem_append.1 hx with hx | hx
          · have := hmono x (List.mem_append_left _ hx)
            linarith
          · simp at hx
            subst hx
            linarith
      · exact List.getLast?_concat (b :: bs)

/-- Claim C8 witness: appending time 4 to the buffer [0, 2] keeps every
entry within 21000 ms of the new newest entry 4. -/
theorem buffer_retention_witness :
    (∀ x ∈ bufStep [(0 : ℝ), 2] 4, 4 - 21000 ≤ x) ∧
    (bufStep [(0 : ℝ), 2] 4).getLast? = some 4 ∧
    spaced (bufStep [(0 : ℝ), 2] 4) :=
  buffer_retention [0, 2] 4 ⟨by norm_num, by norm_num, trivial⟩
    (by intro x hx; fin_cases hx <;> norm_num)

end
